import Mathlib

/-!
Verification development for the `django_pq` substitution-cache engine
(`django_pq/lazy.py`, `django_pq/queryset.py`, `django_pq/cache.py`).

The Python code is shallowly embedded: Python values are modelled by `PyVal`
(scalars, and flat lists/tuples of scalars, which is the domain of SQL
parameters this library handles), raised exceptions by `Except PyErr`, the
process-global `LazyContext.instance` by an explicit `Option LazyContext`
argument, and the mutable caches of `LazySubstitute` by explicit state
threading.  Wrapped query-construction functions are modelled as pure
functions `Kwargs → QS`; each call the engine makes to the wrapped function
is recorded in an explicit trace list.
-/

/-- Scalar Python values occurring as SQL parameters or cache-key material.
`dt s` is a `datetime` carrying its `str()` rendering `s`; `model m` is a
`django.db.models.Model` instance; `lazy k` is a `Lazy` proxy carrying its
key (the `Lazy` class stores only `self.__key`). -/
inductive PyScalar where
  | none
  | bool (b : Bool)
  | int (n : Int)
  | float (q : Rat)
  | str (s : String)
  | dt (s : String)
  | model (m : String)
  | lazy (k : String)

/-- Python values handled by the library: scalars, or flat `list`/`tuple`
sequences of scalars (the shape of multi-valued SQL arguments). -/
inductive PyVal where
  | scalar (s : PyScalar)
  | list (xs : List PyScalar)
  | tuple (xs : List PyScalar)

/-- Python exceptions raised by the embedded code.  `runtimeError args`
models `RuntimeError(*args)`; `sqlMappingFailed` and `paramsMappingFailed`
model the `MappingFailed` subclasses of `cache.py`. -/
inductive PyErr where
  | runtimeError (args : List String)
  | keyError (key : String)
  | attributeError (name : String)
  | typeError (msg : String)
  | valueError (msg : String)
  | sqlMappingFailed (sql1 sql2 : String)
  | paramsMappingFailed (sql : String) (p1 p2 : List PyScalar)

/-- Numeric value of a scalar under Python's numeric tower (`True == 1`,
`False == 0`, `1 == 1.0`); `none` for non-numeric scalars. -/
def scalarToNum : PyScalar → Option Rat
  | .bool b => some (if b then 1 else 0)
  | .int n => some (n : Rat)
  | .float q => some q
  | _ => none

/-- Python `==` on scalars: numeric values compare by value across
`bool`/`int`/`float`; other scalars compare structurally within their type
and are `False` across types. -/
def pyScalarEq (a b : PyScalar) : Bool :=
  match scalarToNum a, scalarToNum b with
  | some x, some y => decide (x = y)
  | Option.none, Option.none =>
    match a, b with
    | .none, .none => true
    | .str s, .str t => s == t
    | .dt s, .dt t => s == t
    | .model m, .model n => m == n
    | .lazy k, .lazy l => k == l
    | _, _ => false
  | _, _ => false

/-- Elementwise Python `==` on sequences of scalars (Python compares
lists/tuples elementwise, requiring equal length). -/
def pyScalarListEq : List PyScalar → List PyScalar → Bool
  | [], [] => true
  | x :: xs, y :: ys => pyScalarEq x y && pyScalarListEq xs ys
  | _, _ => false

/-- Python `==` on values: `list == tuple` is `False` in Python, so the
sequence kinds only compare within themselves. -/
def pyEq : PyVal → PyVal → Bool
  | .scalar a, .scalar b => pyScalarEq a b
  | .list xs, .list ys => pyScalarListEq xs ys
  | .tuple xs, .tuple ys => pyScalarListEq xs ys
  | _, _ => false

/-- Elementwise Python `==` on argument-value sequences. -/
def pyListEq : List PyVal → List PyVal → Bool
  | [], [] => true
  | x :: xs, y :: ys => pyEq x y && pyListEq xs ys
  | _, _ => false

/-! ## lazy.py: message constants and error taxonomy -/

/-- Message constant `LAZY_PROXY_CHECK_ERROR` from `lazy.py`. -/
def LAZY_PROXY_CHECK_ERROR : String :=
  "You are checking Lazy proxy instead of its value"

/-- Message constant `LAZY_EMPTY_LIST_FORBIDDEN` from `lazy.py`. -/
def LAZY_EMPTY_LIST_FORBIDDEN : String :=
  "Empty list in Lazy leads to unequivalent results"

/-- Message constant `LAZY_MODEL_FORBIDDEN` from `lazy.py`. -/
def LAZY_MODEL_FORBIDDEN : String :=
  "You should not pass Model object as a cache argument"

/-- Message of the `RuntimeError` raised by `LazyContext.get` when a real
value is requested outside a permitted window. -/
def UNSAFE_GET_ERROR : String := "Get real value is unsafe now"

/-- The specification's `InvalidProxyInput` failure: in the code this is a
`RuntimeError(key, message)` raised by `Lazy.__init__` with one of the two
forbidden-input messages. -/
def isInvalidProxyInput : PyErr → Bool
  | .runtimeError [_, m] => m == LAZY_EMPTY_LIST_FORBIDDEN || m == LAZY_MODEL_FORBIDDEN
  | _ => false

/-- The specification's `UnsafeProxyAccess` failure: in the code this is a
`RuntimeError` carrying either the truthiness-check message of
`Lazy.__nonzero__` or the unsafe-get message of `LazyContext.get`. -/
def isUnsafeProxyAccess : PyErr → Bool
  | .runtimeError [m] => m == LAZY_PROXY_CHECK_ERROR || m == UNSAFE_GET_ERROR
  | _ => false

/-- Python `except MappingFailed` matches both `SqlMappingFailed` and
`ParamsMappingFailed`. -/
def isMappingFailed : PyErr → Bool
  | .sqlMappingFailed _ _ => true
  | .paramsMappingFailed _ _ _ => true
  | _ => false

/-! ## lazy.py: LazyContext and the Lazy proxy -/

/-- A keyword-argument mapping (a Python `dict` keyed by argument name). -/
abbrev Kwargs := List (String × PyVal)

/-- Association-list lookup, modelling `d[k]` on a Python dict (`none` means
`KeyError`). -/
def alook {α β : Type} [BEq α] : List (α × β) → α → Option β
  | [], _ => Option.none
  | (k, v) :: rest, key => if k == key then some v else alook rest key

/-- Association-list store, modelling `d[k] = v` on a Python dict. -/
def aupdate {α β : Type} [BEq α] : List (α × β) → α → β → List (α × β)
  | [], key, v => [(key, v)]
  | (k, w) :: rest, key, v =>
      if k == key then (k, v) :: rest else (k, w) :: aupdate rest key v

/-- `LazyContext` object: real argument values of one call, the
`values_allowed` flag (initially `False`), and `self.__prev_instance` as
saved by `__enter__`.  The process-global `LazyContext.instance` is passed
around explicitly as an `Option LazyContext`. -/
inductive LazyContext where
  | mk (kwargs : Kwargs) (values_allowed : Bool) (prev : Option LazyContext)

/-- Field accessor for the stored argument values. -/
def LazyContext.kwargs : LazyContext → Kwargs
  | .mk kw _ _ => kw

/-- Field accessor for the `values_allowed` flag. -/
def LazyContext.values_allowed : LazyContext → Bool
  | .mk _ va _ => va

/-- Field accessor for the saved previous instance. -/
def LazyContext.prev : LazyContext → Option LazyContext
  | .mk _ _ p => p

/-- `LazyContext.__init__(*args, **params)`: the pre-processing hooks in
`args` are applied in order to the keyword values; `values_allowed` starts
`False` and no previous instance is saved yet. -/
def LazyContext.init (norms : List (Kwargs → Kwargs)) (params : Kwargs) : LazyContext :=
  .mk (norms.foldl (fun kw norm => norm kw) params) false Option.none

/-- `LazyContext.get(key, safe)`: raises `RuntimeError` unless
`values_allowed or safe`; otherwise `self.kwargs[key]` (with `KeyError` for
a missing key). -/
def LazyContext.get (c : LazyContext) (key : String) (safe : Bool) : Except PyErr PyVal :=
  if !(c.values_allowed || safe) then .error (.runtimeError [UNSAFE_GET_ERROR])
  else
    match alook c.kwargs key with
    | some v => .ok v
    | Option.none => .error (.keyError key)

/-- `LazyContext.__enter__`: saves the current instance into
`self.__prev_instance`, installs `self` as the current instance, and
returns `self.kwargs`.  Result: (entered object, new current instance,
value bound by the `with ... as` clause). -/
def LazyContext.enter (c : LazyContext) (world : Option LazyContext) :
    LazyContext × Option LazyContext × Kwargs :=
  let entered := LazyContext.mk c.kwargs c.values_allowed world
  (entered, some entered, c.kwargs)

/-- `LazyContext.__exit__`: restores the saved previous instance as current,
ignoring the exception information and whatever the current instance is. -/
def LazyContext.exit (c : LazyContext) (exc : Option PyErr)
    (world : Option LazyContext) : Option LazyContext :=
  c.prev

/-- The `with LazyContext(...) as kwargs:` statement: `__enter__`, then the
body (which receives the bound kwargs and may change the current instance),
then `__exit__` on both the normal and the error path, with the error
re-raised afterwards. -/
def withLazyContext {α : Type} (world : Option LazyContext) (c : LazyContext)
    (body : Kwargs → Option LazyContext → Except PyErr α × Option LazyContext) :
    Except PyErr α × Option LazyContext :=
  let (entered, world1, bound) := LazyContext.enter c world
  let (r, world2) := body bound world1
  let excInfo : Option PyErr := match r with
    | .error e => some e
    | .ok _ => Option.none
  (r, LazyContext.exit entered excInfo world2)

/-- Test `isinstance(value, (list, tuple)) and not value` from
`Lazy.__init__`. -/
def PyVal.isEmptySeq : PyVal → Bool
  | .list [] => true
  | .tuple [] => true
  | _ => false

/-- Test `isinstance(value, models.Model)` from `Lazy.__init__`. -/
def PyVal.isModelInstance : PyVal → Bool
  | .scalar (.model _) => true
  | _ => false

/-- `Lazy.__init__(key, value)`: rejects empty lists/tuples and `Model`
instances with a `RuntimeError`; any other value yields a proxy carrying
only the key. -/
def Lazy.init (key : String) (value : PyVal) : Except PyErr PyVal :=
  if value.isEmptySeq then .error (.runtimeError [key, LAZY_EMPTY_LIST_FORBIDDEN])
  else if value.isModelInstance then .error (.runtimeError [key, LAZY_MODEL_FORBIDDEN])
  else .ok (.scalar (.lazy key))

/-- `Lazy.reveal(safe)`: asks the current `LazyContext.instance` for the
real value; a `RuntimeError` from the context is caught and the proxy
itself is returned instead.  A missing current instance is an
`AttributeError` on `None` (not caught); a missing key is a `KeyError`
(not caught). -/
def Lazy.reveal (inst : Option LazyContext) (key : String) (safe : Bool) :
    Except PyErr PyVal :=
  match inst with
  | Option.none => .error (.attributeError "get")
  | some c =>
    match c.get key safe with
    | .error (.runtimeError _) => .ok (.scalar (.lazy key))
    | r => r

/-- `Lazy.__nonzero__`: truthiness of a proxy is always a `RuntimeError`,
whatever the key and whatever the current context is. -/
def Lazy.nonzero (inst : Option LazyContext) (key : String) : Except PyErr Bool :=
  .error (.runtimeError [LAZY_PROXY_CHECK_ERROR])

/-- Module-level `reveal(value)` from `lazy.py`: `Lazy` proxies are resolved
with `safe=True`, anything else passes through unchanged. -/
def reveal (inst : Option LazyContext) (value : PyVal) : Except PyErr PyVal :=
  match value with
  | .scalar (.lazy k) => Lazy.reveal inst k true
  | v => .ok v

/-! ## queryset.py: datetime normalization and the template normalizer -/

/-- `datetime_to_str(p)`: datetimes are replaced by their string form,
everything else is returned unchanged. -/
def datetime_to_str : PyScalar → PyScalar
  | .dt s => .str s
  | p => p

/-- Test for a `datetime` value. -/
def PyScalar.isDt : PyScalar → Bool
  | .dt _ => true
  | _ => false

/-- Python `%`-formatting restricted to the `%s` conversion (the only one
occurring in SQL templates) and the `%%` escape: each `%s` consumes the
next placeholder string; a count mismatch is a `TypeError` and any other
conversion character is a `ValueError`, as in CPython. -/
def pyFormatAux : List Char → List String → Except PyErr (List Char)
  | [], [] => .ok []
  | [], _ :: _ => .error (.typeError "not all arguments converted during string formatting")
  | '%' :: 's' :: rest, a :: args =>
    match pyFormatAux rest args with
    | .ok t => .ok (a.toList ++ t)
    | .error e => .error e
  | '%' :: 's' :: _, [] => .error (.typeError "not enough arguments for format string")
  | '%' :: '%' :: rest, args =>
    match pyFormatAux rest args with
    | .ok t => .ok ('%' :: t)
    | .error e => .error e
  | '%' :: _, _ => .error (.valueError "unsupported format character")
  | c :: rest, args =>
    match pyFormatAux rest args with
    | .ok t => .ok (c :: t)
    | .error e => .error e

/-- `sql % tuple(placeholders)`. -/
def pyFormat (sql : String) (args : List String) : Except PyErr String :=
  match pyFormatAux sql.toList args with
  | .ok cs => .ok (String.mk cs)
  | .error e => .error e

/-- The loop of `normalize` over the already-revealed parameters: a
list/tuple of length N contributes `', '.flatten(['%s'] * N)` as its
placeholder and its N elements to the real parameters; any other value
contributes a single `'%s'` and itself. -/
def normalizeLoop : List PyVal → List String × List PyScalar
  | [] => ([], [])
  | p :: ps =>
    let (phs, rps) := normalizeLoop ps
    match p with
    | .list xs => (String.intercalate ", " (List.replicate xs.length "%s") :: phs, xs ++ rps)
    | .tuple xs => (String.intercalate ", " (List.replicate xs.length "%s") :: phs, xs ++ rps)
    | .scalar s => ("%s" :: phs, s :: rps)

/-- `map(reveal, params)` (eager in Python 2): reveal every parameter,
propagating the first error. -/
def revealAll (inst : Option LazyContext) : List PyVal → Except PyErr (List PyVal)
  | [] => .ok []
  | p :: ps =>
    match reveal inst p with
    | .error e => .error e
    | .ok v =>
      match revealAll inst ps with
      | .error e => .error e
      | .ok vs => .ok (v :: vs)

/-- `normalize(sql, params)` from `queryset.py`: reveal actual parameter
values, expand sequence-valued slots into per-element `%s` placeholders,
substitute the placeholders into the SQL template, and stringify datetime
parameters.  (The Python signature also accepts a single `(sql, params)`
pair argument which it unpacks; both call sites are modelled by passing the
components.) -/
def queryset.normalize (inst : Option LazyContext) (sql : String) (params : List PyVal) :
    Except PyErr (String × List PyScalar) :=
  match revealAll inst params with
  | .error e => .error e
  | .ok revealed =>
    let (placeholders, real_params) := normalizeLoop revealed
    match pyFormat sql placeholders with
    | .error e => .error e
    | .ok sql2 => .ok (sql2, real_params.map datetime_to_str)

/-! ## cache.py: cache keys, query sets and the LazySubstitute engine -/

/-- A cache-key position: either an argument value embedded literally (one
of the special constants) or the single `Stub()` marker object meaning
"a value is present here". -/
inductive KeyElem where
  | val (v : PyVal)
  | stub

/-- Python `==` on cache-key positions: the stub is one shared object equal
only to itself; embedded values compare with Python `==`. -/
def keyEq : KeyElem → KeyElem → Bool
  | .stub, .stub => true
  | .val a, .val b => pyEq a b
  | _, _ => false

/-- Python `==` on whole cache keys (tuples compare elementwise with equal
length); this is the equality the `QueryCache` dict uses for lookups. -/
def ckeyEq : List KeyElem → List KeyElem → Bool
  | [], [] => true
  | a :: xs, b :: ys => keyEq a b && ckeyEq xs ys
  | _, _ => false

/-- `LazySubstitute.special = [True, False, None, 0, 1]`. -/
def LazySubstitute.special : List PyVal :=
  [.scalar (.bool true), .scalar (.bool false), .scalar .none,
   .scalar (.int 0), .scalar (.int 1)]

/-- Python `p in self.special` (membership by `==`). -/
def isSpecial (p : PyVal) : Bool :=
  LazySubstitute.special.any (fun s => pyEq p s)

/-- `LazySubstitute.get_cache_key(params)`: known constants are embedded
directly, every other value is replaced by the stub marker. -/
def LazySubstitute.get_cache_key (params : List PyVal) : List KeyElem :=
  params.map (fun p => if isSpecial p then KeyElem.val p else KeyElem.stub)

/-- Result of the wrapped query-construction function, exposing what the
engine reads from it: `qs.query.sql_with_params()` (the `sql` and `params`
fields) and `qs.model`. -/
structure QS where
  sql : String
  params : List PyVal
  model : String

/-- `RawQuerySet(sql, params=params, model=model)` as stored in the
template cache and returned on hits: only its constructor arguments matter
to the engine (`raw_query`, `params`, `model`). -/
structure RawQS where
  raw_query : String
  params : List PyVal
  model : String

/-- Per-signature template cache (`QueryCache`): a dict keyed by cache keys
under Python `==`. -/
abbrev QueryCache := List (List KeyElem × RawQS)

/-- The two-level cache (`CacheType`): argument signature to `QueryCache`.
`defaultdict(dict)` semantics are modelled at the use sites. -/
abbrev CacheT := List (List String × QueryCache)

/-- Dict lookup in a `QueryCache` (keys compare with Python `==`). -/
def qcacheLookup : QueryCache → List KeyElem → Option RawQS
  | [], _ => Option.none
  | (k, v) :: rest, key => if ckeyEq k key then some v else qcacheLookup rest key

/-- Dict store in a `QueryCache` (`cache[cache_key] = raw_qs`). -/
def qcacheInsert : QueryCache → List KeyElem → RawQS → QueryCache
  | [], key, v => [(key, v)]
  | (k, w) :: rest, key, v =>
    if ckeyEq k key then (k, v) :: rest else (k, w) :: qcacheInsert rest key v

/-- `LazySubstitute` configuration set up by `__init__`: `self.DEBUG`,
`self.check` and `self.enabled` (the mutable template cache `self.cache` is
threaded explicitly through `do_call`). -/
structure LazySubstitute where
  DEBUG : Bool
  check : Bool
  enabled : Bool

/-- `LazySubstitute.__init__(check, debug, enabled)`: stores `debug` as
`DEBUG` and `check or debug` as `check`. -/
def LazySubstitute.init (check debug enabled : Bool) : LazySubstitute :=
  { DEBUG := debug, check := check || debug, enabled := enabled }

/-- `LazySubstitute.assert_equivalent(first, second)`: normalize both
`(sql, params)` pairs, raise `SqlMappingFailed` on differing SQL, then
`ParamsMappingFailed` on differing parameter tuples (Python `!=`, i.e.
elementwise `==`).  The `message` argument only feeds the logger and is
omitted. -/
def LazySubstitute.assert_equivalent (inst : Option LazyContext)
    (first second : String × List PyVal) : Except PyErr Unit :=
  match queryset.normalize inst first.1 first.2 with
  | .error e => .error e
  | .ok (sql1, params1) =>
    match queryset.normalize inst second.1 second.2 with
    | .error e => .error e
    | .ok (sql2, params2) =>
      if sql1 == sql2 then
        if pyScalarListEq params1 params2 then .ok ()
        else .error (.paramsMappingFailed sql1 params1 params2)
      else .error (.sqlMappingFailed sql1 sql2)

/-- `LazySubstitute.cache_result(cache, cache_key, lazy_qs, real_qs)`:
extract the lazy `(sql, params)`, verify against the real result when one
was supplied, then build the `RawQuerySet` and store it under the cache
key.  Returns the stored queryset and the updated per-signature cache. -/
def LazySubstitute.cache_result (inst : Option LazyContext) (cache : QueryCache)
    (cache_key : List KeyElem) (lazy_qs : QS) (real_qs : Option QS) :
    Except PyErr (RawQS × QueryCache) :=
  let lazy := (lazy_qs.sql, lazy_qs.params)
  let verify : Except PyErr Unit :=
    match real_qs with
    | some r => LazySubstitute.assert_equivalent inst lazy (r.sql, r.params)
    | Option.none => .ok ()
  match verify with
  | .error e => .error e
  | .ok _ =>
    let raw_qs : RawQS := { raw_query := lazy.1, params := lazy.2, model := lazy_qs.model }
    .ok (raw_qs, qcacheInsert cache cache_key raw_qs)

/-- `LazySubstitute.get_normalized_queryset(qs)`: a fresh `RawQuerySet`
whose SQL and parameters are normalized for the current actual values. -/
def LazySubstitute.get_normalized_queryset (inst : Option LazyContext) (qs : RawQS) :
    Except PyErr RawQS :=
  match queryset.normalize inst qs.raw_query qs.params with
  | .error e => .error e
  | .ok (sql, params) =>
    .ok { raw_query := sql, params := params.map PyVal.scalar, model := qs.model }

/-- The dict comprehension `{k: Lazy(k, v) for k, v in kwargs.items()}` of
`get_lazy_result`: the first failing `Lazy.__init__` raises. -/
def lazyKwargs : Kwargs → Except PyErr Kwargs
  | [] => .ok []
  | (k, v) :: rest =>
    match Lazy.init k v with
    | .error e => .error e
    | .ok l =>
      match lazyKwargs rest with
      | .error e => .error e
      | .ok rest2 => .ok ((k, l) :: rest2)

/-- Insertion of a string into a sorted list (helper for `sorted`). -/
def insertSorted (s : String) : List String → List String
  | [] => [s]
  | t :: ts => if s ≤ t then s :: t :: ts else t :: insertSorted s ts

/-- Python `sorted` on strings. -/
def sortStrings : List String → List String
  | [] => []
  | s :: ss => insertSorted s (sortStrings ss)

/-- `signature = tuple(sorted(kwargs))` from `do_call`. -/
def callSignature (kwargs : Kwargs) : List String :=
  sortStrings (kwargs.map Prod.fst)

/-- `cache_key = self.get_cache_key(kwargs[k] for k in signature)` from
`do_call` (every name in the signature is a key of `kwargs`, so the
default value of the lookup is never used). -/
def callKey (kwargs : Kwargs) : List KeyElem :=
  LazySubstitute.get_cache_key
    ((callSignature kwargs).map (fun k => (alook kwargs k).getD (.scalar .none)))

/-- `cache = self.cache[signature]` on the `defaultdict`: the existing
per-signature dict, or a fresh empty one. -/
def sigCache (cache : CacheT) (signature : List String) : QueryCache :=
  (alook cache signature).getD []

/-- What `do_call` returns: a `RawQuerySet` (hit, or miss successfully
cached), or `return real_qs` from the `MappingFailed` fallback (which is
`None` when no real queryset was computed). -/
inductive CallResult where
  | raw (r : RawQS)
  | native (q : Option QS)

/-- `LazySubstitute.do_call(this, **kwargs)`.  `func` is the wrapped
query-construction function (its `this` receiver is absorbed into it);
`inst` is the current `LazyContext.instance`; `cache` is `self.cache`.
Returns the call's outcome, the updated cache, and the trace of arguments
of every invocation of the wrapped function, in order. -/
def LazySubstitute.do_call (cfg : LazySubstitute) (inst : Option LazyContext)
    (func : Kwargs → QS) (kwargs : Kwargs) (cache : CacheT) :
    Except PyErr CallResult × CacheT × List Kwargs :=
  let signature := callSignature kwargs
  let cache_key := callKey kwargs
  let qcache := sigCache cache signature
  -- `if self.DEBUG:` compute the native queryset up front (one real call)
  let expected_qs : Option QS := if cfg.DEBUG then some (func kwargs) else Option.none
  let tr0 : List Kwargs := if cfg.DEBUG then [kwargs] else []
  match qcacheLookup qcache cache_key with
  | some cached_qs =>
    -- cache hit
    let st1 := aupdate cache signature qcache
    match LazySubstitute.get_normalized_queryset inst cached_qs with
    | .error e => (.error e, st1, tr0)
    | .ok normalized_qs =>
      match expected_qs with
      | some eqs =>
        -- `if self.DEBUG:` verify cached result against the native one
        match LazySubstitute.assert_equivalent inst
            (normalized_qs.raw_query, normalized_qs.params) (eqs.sql, eqs.params) with
        | .error e => (.error e, st1, tr0)
        | .ok _ => (.ok (.raw normalized_qs), st1, tr0)
      | Option.none => (.ok (.raw normalized_qs), st1, tr0)
  | Option.none =>
    -- cache miss: `real_qs = expected_qs if self.check else None`
    let real_qs : Option QS := if cfg.check then expected_qs else Option.none
    match lazyKwargs kwargs with
    | .error e => (.error e, aupdate cache signature qcache, tr0)
    | .ok lk =>
      let lazy_qs := func lk
      let tr1 := tr0 ++ [lk]
      match LazySubstitute.cache_result inst qcache cache_key lazy_qs real_qs with
      | .ok (raw_qs, qcache2) =>
        let st2 := aupdate cache signature qcache2
        match LazySubstitute.get_normalized_queryset inst raw_qs with
        | .ok nqs => (.ok (.raw nqs), st2, tr1)
        | .error e =>
          -- the `except MappingFailed` handler also covers this statement,
          -- though `normalize` only raises Key/Type/Value errors here
          if isMappingFailed e then
            if cfg.DEBUG then (.error e, st2, tr1)
            else (.ok (.native real_qs), st2, tr1)
          else (.error e, st2, tr1)
      | .error e =>
        let st1 := aupdate cache signature qcache
        if isMappingFailed e then
          if cfg.DEBUG then (.error e, st1, tr1)
          else (.ok (.native real_qs), st1, tr1)
        else (.error e, st1, tr1)

/-! ## Auxiliary definitions used by the theorems -/

/-- Numeric value of a Python value (sequences are never numeric). -/
def pyNumVal : PyVal → Option Rat
  | .scalar s => scalarToNum s
  | _ => Option.none

/-- A `LazyContext` holding one real value under key `"k"`, with
`values_allowed` still `False` (fresh context, construction phase). -/
def c6ctx : LazyContext := .mk [("k", .scalar (.int 5))] false Option.none

/-! ## Helper lemmas -/

theorem alook_aupdate {α β : Type} [BEq α] [LawfulBEq α]
    (l : List (α × β)) (k : α) (v : β) : alook (aupdate l k v) k = some v := by
  induction l with
  | nil => simp [aupdate, alook]
  | cons kv rest ih =>
    obtain ⟨k2, w⟩ := kv
    by_cases hk : k2 == k
    · simp [aupdate, hk, alook]
    · simp [aupdate, hk, alook, ih]

theorem cache_result_verified (inst : Option LazyContext) (qc : QueryCache)
    (key : List KeyElem) (lq r : QS) (x : RawQS × QueryCache)
    (h : LazySubstitute.cache_result inst qc key lq (some r) = .ok x) :
    LazySubstitute.assert_equivalent inst (lq.sql, lq.params) (r.sql, r.params) = .ok () := by
  unfold LazySubstitute.cache_result at h
  rcases ha : LazySubstitute.assert_equivalent inst (lq.sql, lq.params) (r.sql, r.params)
      with e | u
  · simp [ha] at h
  · cases u; rfl

theorem scalarEq_imp_toNum (s t : PyScalar) (h : pyScalarEq s t = true) :
    scalarToNum s = scalarToNum t := by
  unfold pyScalarEq at h
  rcases hs : scalarToNum s with _ | x <;> rcases ht : scalarToNum t with _ | y <;>
    rw [hs, ht] at h <;> simp_all

theorem pyEq_imp_num (a b : PyVal) (h : pyEq a b = true) : pyNumVal a = pyNumVal b := by
  cases a <;> cases b <;> simp [pyEq] at h <;> simp [pyNumVal]
  exact scalarEq_imp_toNum _ _ h

theorem pyScalarEq_num (a t : PyScalar) (q : Rat) (hq : scalarToNum t = some q) :
    pyScalarEq a t = decide (scalarToNum a = some q) := by
  unfold pyScalarEq
  rcases ha : scalarToNum a with _ | x
  · rw [hq]
    simp
  · rw [hq]
    simp

theorem pyEq_num_right (p : PyVal) (t : PyScalar) (q : Rat) (hq : scalarToNum t = some q) :
    pyEq p (.scalar t) = decide (pyNumVal p = some q) := by
  cases p with
  | scalar s => simpa [pyEq, pyNumVal] using pyScalarEq_num s t q hq
  | list xs =>
    have : scalarToNum t ≠ Option.none := by simp [hq]
    simp [pyEq, pyNumVal]
  | tuple xs => simp [pyEq, pyNumVal]

theorem pyScalarEq_none_iff (s : PyScalar) :
    pyScalarEq s PyScalar.none = true ↔ s = PyScalar.none := by
  cases s <;> simp [pyScalarEq, scalarToNum]

theorem pyEq_none_right (p : PyVal) :
    pyEq p (.scalar .none) = true ↔ p = .scalar .none := by
  cases p with
  | scalar s => simp [pyEq, pyScalarEq_none_iff]
  | list xs => simp [pyEq]
  | tuple xs => simp [pyEq]

theorem pyScalarEq_none_left (t : PyScalar) :
    pyScalarEq PyScalar.none t = true ↔ t = PyScalar.none := by
  cases t <;> simp [pyScalarEq, scalarToNum]

theorem pyEq_imp_none_iff (a b : PyVal) (h : pyEq a b = true) :
    a = PyVal.scalar .none ↔ b = PyVal.scalar .none := by
  constructor
  · rintro rfl
    cases b with
    | scalar s =>
      simp only [pyEq] at h
      exact congrArg PyVal.scalar ((pyScalarEq_none_left s).mp h)
    | list xs => simp [pyEq] at h
    | tuple xs => simp [pyEq] at h
  · rintro rfl
    cases a with
    | scalar s =>
      simp only [pyEq] at h
      exact congrArg PyVal.scalar ((pyScalarEq_none_iff s).mp h)
    | list xs => simp [pyEq] at h
    | tuple xs => simp [pyEq] at h

theorem pyEq_special_congr (a b : PyVal) (h : pyEq a b = true) :
    ∀ s ∈ LazySubstitute.special, pyEq a s = pyEq b s := by
  have hn := pyEq_imp_num a b h
  intro s hs
  simp only [LazySubstitute.special, List.mem_cons, List.not_mem_nil, or_false] at hs
  rcases hs with rfl | rfl | rfl | rfl | rfl
  · rw [pyEq_num_right a (.bool true) 1 (by decide),
        pyEq_num_right b (.bool true) 1 (by decide), hn]
  · rw [pyEq_num_right a (.bool false) 0 (by decide),
        pyEq_num_right b (.bool false) 0 (by decide), hn]
  · rw [Bool.eq_iff_iff, pyEq_none_right, pyEq_none_right]
    exact pyEq_imp_none_iff a b h
  · rw [pyEq_num_right a (.int 0) 0 (by decide),
        pyEq_num_right b (.int 0) 0 (by decide), hn]
  · rw [pyEq_num_right a (.int 1) 1 (by decide),
        pyEq_num_right b (.int 1) 1 (by decide), hn]

theorem isSpecial_congr (a b : PyVal) (h : pyEq a b = true) :
    isSpecial a = isSpecial b := by
  have h1 := pyEq_special_congr a b h (.scalar (.bool true)) (by simp [LazySubstitute.special])
  have h2 := pyEq_special_congr a b h (.scalar (.bool false)) (by simp [LazySubstitute.special])
  have h3 := pyEq_special_congr a b h (.scalar .none) (by simp [LazySubstitute.special])
  have h4 := pyEq_special_congr a b h (.scalar (.int 0)) (by simp [LazySubstitute.special])
  have h5 := pyEq_special_congr a b h (.scalar (.int 1)) (by simp [LazySubstitute.special])
  simp only [isSpecial, LazySubstitute.special, List.any_cons, List.any_nil]
  rw [h1, h2, h3, h4, h5]

/-- C10: `get_cache_key` classifies by Python equality, not identity: two
argument-value sequences that are pairwise equal under Python `==` (e.g.
`True` and `1`, `False` and `0`, `1` and `1.0`) yield cache keys that are
equal under the Python `==` the template-cache dict uses for lookups, so
such calls index the same cached template. -/
theorem c10_cache_key_eq_by_equality (ps1 ps2 : List PyVal)
    (h : pyListEq ps1 ps2 = true) :
    ckeyEq (LazySubstitute.get_cache_key ps1) (LazySubstitute.get_cache_key ps2) = true := by
  induction ps1 generalizing ps2 with
  | nil =>
    cases ps2 with
    | nil => rfl
    | cons q qs => simp [pyListEq] at h
  | cons p ps ih =>
    cases ps2 with
    | nil => simp [pyListEq] at h
    | cons q qs =>
      rw [pyListEq, Bool.and_eq_true] at h
      obtain ⟨h1, h2⟩ := h
      simp only [LazySubstitute.get_cache_key, List.map_cons]
      rw [ckeyEq, Bool.and_eq_true]
      refine ⟨?_, ?_⟩
      · have hc := isSpecial_congr p q h1
        by_cases hs : isSpecial p = true
        · rw [hs] at hc
          simp [hs, ← hc, keyEq, h1]
        · have hs2 : isSpecial p = false := by simpa using hs
          rw [hs2] at hc
          simp [hs2, ← hc, keyEq]
      · exact ih qs h2

/-- C10 witness: two concrete argument lists differing only between `True`
and `1`, `False` and `0`, `1` and `1.0` (also inside a list value) have
Python-equal cache keys. -/
theorem c10_cache_key_eq_by_equality_witness :
    pyListEq
        [.scalar (.bool true), .scalar (.bool false), .scalar (.int 1),
         .scalar (.str "x"), .list [.int 1]]
        [.scalar (.int 1), .scalar (.int 0), .scalar (.float 1),
         .scalar (.str "x"), .list [.float 1]] = true ∧
    ckeyEq
      (LazySubstitute.get_cache_key
        [.scalar (.bool true), .scalar (.bool false), .scalar (.int 1),
         .scalar (.str "x"), .list [.int 1]])
      (LazySubstitute.get_cache_key
        [.scalar (.int 1), .scalar (.int 0), .scalar (.float 1),
         .scalar (.str "x"), .list [.float 1]]) = true :=
  ⟨by decide, c10_cache_key_eq_by_equality _ _ (by decide)⟩

/-- C4: every position of a cache key is either the stub marker or a value
equal (under Python `==`) to one of the five special constants, so each
position ranges over at most six distinct values; and two argument lists
that agree at special-valued positions and differ only in non-special
values produce identical cache keys. -/
theorem c4_cache_key_bounded (ps ps1 ps2 : List PyVal)
    (h : List.Forall₂
      (fun a b => a = b ∨ (isSpecial a = false ∧ isSpecial b = false)) ps1 ps2) :
    (∀ e ∈ LazySubstitute.get_cache_key ps,
        e = KeyElem.stub ∨
        ∃ v, e = KeyElem.val v ∧ ∃ s ∈ LazySubstitute.special, pyEq v s = true) ∧
    LazySubstitute.get_cache_key ps1 = LazySubstitute.get_cache_key ps2 := by
  constructor
  · intro e he
    unfold LazySubstitute.get_cache_key at he
    rw [List.mem_map] at he
    obtain ⟨p, hp, rfl⟩ := he
    by_cases hs : isSpecial p = true
    · right
      refine ⟨p, by simp [hs], ?_⟩
      simpa [isSpecial, List.any_eq_true] using hs
    · left
      simp [hs]
  · clear ps
    induction h with
    | nil => rfl
    | @cons a b as bs hab hrest ih =>
      simp only [LazySubstitute.get_cache_key, List.map_cons] at ih ⊢
      rcases hab with rfl | ⟨ha, hb⟩
      · rw [ih]
      · simp [ha, hb, ih]

/-- C4 witness: a concrete key whose positions are a special constant and a
stub, and two argument lists differing only in a non-special string value,
which share one cache key. -/
theorem c4_cache_key_bounded_witness :
    List.Forall₂
      (fun a b => a = b ∨ (isSpecial a = false ∧ isSpecial b = false))
      [PyVal.scalar (.str "a"), PyVal.scalar (.bool true)]
      [PyVal.scalar (.str "b"), PyVal.scalar (.bool true)] ∧
    ((∀ e ∈ LazySubstitute.get_cache_key
          [PyVal.scalar (.int 0), PyVal.scalar (.str "zz")],
        e = KeyElem.stub ∨
        ∃ v, e = KeyElem.val v ∧ ∃ s ∈ LazySubstitute.special, pyEq v s = true) ∧
      LazySubstitute.get_cache_key [PyVal.scalar (.str "a"), PyVal.scalar (.bool true)]
        = LazySubstitute.get_cache_key [PyVal.scalar (.str "b"), PyVal.scalar (.bool true)]) :=
  have h : List.Forall₂
      (fun a b => a = b ∨ (isSpecial a = false ∧ isSpecial b = false))
      [PyVal.scalar (.str "a"), PyVal.scalar (.bool true)]
      [PyVal.scalar (.str "b"), PyVal.scalar (.bool true)] :=
    .cons (Or.inr ⟨rfl, rfl⟩) (.cons (Or.inl rfl) .nil)
  ⟨h, c4_cache_key_bounded
    [PyVal.scalar (.int 0), PyVal.scalar (.str "zz")] _ _ h⟩

theorem normalizeLoop_closed (l : List PyVal) :
    normalizeLoop l =
      (l.map (fun p => match p with
        | .list xs => String.intercalate ", " (List.replicate xs.length "%s")
        | .tuple xs => String.intercalate ", " (List.replicate xs.length "%s")
        | .scalar _ => "%s"),
       (l.map (fun p => match p with
        | .list xs => xs
        | .tuple xs => xs
        | .scalar s => [s])).flatten) := by
  induction l with
  | nil => rfl
  | cons p ps ih => cases p <;> simp [normalizeLoop, ih]

theorem datetime_to_str_not_dt (s : PyScalar) : (datetime_to_str s).isDt = false := by
  cases s <;> rfl

/-- C1: on success, `normalize` turns each revealed list/tuple slot of
length N into N `%s` placeholders joined by `", "` with the N elements
flattened in place, each non-sequence slot into a single `%s` with the
value kept in place, and stringifies every datetime in the output
parameters (no datetime remains). -/
theorem c1_normalize_expansion (inst : Option LazyContext) (sql : String)
    (params revealed : List PyVal) (sql2 : String) (out : List PyScalar)
    (hr : revealAll inst params = .ok revealed)
    (hn : queryset.normalize inst sql params = .ok (sql2, out)) :
    pyFormat sql (revealed.map (fun p => match p with
      | .list xs => String.intercalate ", " (List.replicate xs.length "%s")
      | .tuple xs => String.intercalate ", " (List.replicate xs.length "%s")
      | .scalar _ => "%s")) = .ok sql2 ∧
    out = ((revealed.map (fun p => match p with
      | .list xs => xs
      | .tuple xs => xs
      | .scalar s => [s])).flatten).map datetime_to_str ∧
    out.all (fun q => !q.isDt) = true := by
  unfold queryset.normalize at hn
  simp only [hr] at hn
  simp only [normalizeLoop_closed] at hn
  rcases hf : pyFormat sql (revealed.map (fun p => match p with
      | .list xs => String.intercalate ", " (List.replicate xs.length "%s")
      | .tuple xs => String.intercalate ", " (List.replicate xs.length "%s")
      | .scalar _ => "%s")) with e | s2
  · simp only [hf] at hn
    exact absurd hn (by simp)
  · simp only [hf, Except.ok.injEq, Prod.mk.injEq] at hn
    obtain ⟨hsql, hout⟩ := hn
    subst hsql
    subst hout
    refine ⟨hf, rfl, ?_⟩
    simp [List.all_map, Function.comp, datetime_to_str_not_dt]

/-- C1 witness: a template with a two-element list slot, a datetime slot
and a plain integer slot. -/
theorem c1_normalize_expansion_witness :
    revealAll Option.none
        [.list [.int 1, .int 2], .scalar (.dt "2020-01-01"), .scalar (.int 7)]
      = .ok [.list [.int 1, .int 2], .scalar (.dt "2020-01-01"), .scalar (.int 7)] ∧
    queryset.normalize Option.none "S IN (%s) AND d = %s AND c = %s"
        [.list [.int 1, .int 2], .scalar (.dt "2020-01-01"), .scalar (.int 7)]
      = .ok ("S IN (%s, %s) AND d = %s AND c = %s",
             [.int 1, .int 2, .str "2020-01-01", .int 7]) ∧
    (pyFormat "S IN (%s) AND d = %s AND c = %s"
        (([.list [.int 1, .int 2], .scalar (.dt "2020-01-01"),
          .scalar (.int 7)] : List PyVal).map (fun p => match p with
          | .list xs => String.intercalate ", " (List.replicate xs.length "%s")
          | .tuple xs => String.intercalate ", " (List.replicate xs.length "%s")
          | .scalar _ => "%s"))
        = .ok "S IN (%s, %s) AND d = %s AND c = %s" ∧
      [PyScalar.int 1, .int 2, .str "2020-01-01", .int 7]
        = ((([.list [.int 1, .int 2], .scalar (.dt "2020-01-01"),
            .scalar (.int 7)] : List PyVal).map (fun p => match p with
            | .list xs => xs
            | .tuple xs => xs
            | .scalar s => [s])).flatten).map datetime_to_str ∧
      [PyScalar.int 1, .int 2, .str "2020-01-01", .int 7].all (fun q => !q.isDt) = true) :=
  ⟨rfl, rfl,
    c1_normalize_expansion Option.none "S IN (%s) AND d = %s AND c = %s"
      [.list [.int 1, .int 2], .scalar (.dt "2020-01-01"), .scalar (.int 7)]
      [.list [.int 1, .int 2], .scalar (.dt "2020-01-01"), .scalar (.int 7)]
      "S IN (%s, %s) AND d = %s AND c = %s"
      [.int 1, .int 2, .str "2020-01-01", .int 7] rfl rfl⟩

/-- C5: constructing a proxy from an empty list or tuple always fails with
the `InvalidProxyInput` error (`RuntimeError(key, LAZY_EMPTY_LIST_FORBIDDEN)`),
constructing one from a model instance always fails with the
`InvalidProxyInput` error (`RuntimeError(key, LAZY_MODEL_FORBIDDEN)`), and
construction succeeds on every other value. -/
theorem c5_lazy_init_classification (key : String) (v : PyVal) :
    (v.isEmptySeq = true →
      Lazy.init key v = .error (.runtimeError [key, LAZY_EMPTY_LIST_FORBIDDEN]) ∧
      isInvalidProxyInput (.runtimeError [key, LAZY_EMPTY_LIST_FORBIDDEN]) = true) ∧
    (v.isModelInstance = true →
      Lazy.init key v = .error (.runtimeError [key, LAZY_MODEL_FORBIDDEN]) ∧
      isInvalidProxyInput (.runtimeError [key, LAZY_MODEL_FORBIDDEN]) = true) ∧
    (v.isEmptySeq = false → v.isModelInstance = false →
      Lazy.init key v = .ok (.scalar (.lazy key))) := by
  refine ⟨fun h => ⟨?_, ?_⟩, fun h => ⟨?_, ?_⟩, fun h1 h2 => ?_⟩
  · simp [Lazy.init, h]
  · simp [isInvalidProxyInput]
  · have h0 : v.isEmptySeq = false := by
      rcases v with s | xs | xs
      · rfl
      · cases xs <;> simp_all [PyVal.isModelInstance]
      · cases xs <;> simp_all [PyVal.isModelInstance]
    simp [Lazy.init, h0, h]
  · simp [isInvalidProxyInput]
  · simp [Lazy.init, h1, h2]

/-- C5 witness: the empty list is rejected, a model instance is rejected,
and an ordinary integer is accepted. -/
theorem c5_lazy_init_classification_witness :
    ((PyVal.list []).isEmptySeq = true ∧
      Lazy.init "k" (PyVal.list []) = .error (.runtimeError ["k", LAZY_EMPTY_LIST_FORBIDDEN]) ∧
      isInvalidProxyInput (.runtimeError ["k", LAZY_EMPTY_LIST_FORBIDDEN]) = true) ∧
    ((PyVal.scalar (.model "obj")).isModelInstance = true ∧
      Lazy.init "k2" (PyVal.scalar (.model "obj"))
        = .error (.runtimeError ["k2", LAZY_MODEL_FORBIDDEN]) ∧
      isInvalidProxyInput (.runtimeError ["k2", LAZY_MODEL_FORBIDDEN]) = true) ∧
    ((PyVal.scalar (.int 3)).isEmptySeq = false ∧
      (PyVal.scalar (.int 3)).isModelInstance = false ∧
      Lazy.init "k3" (PyVal.scalar (.int 3)) = .ok (.scalar (.lazy "k3"))) :=
  ⟨⟨rfl, (c5_lazy_init_classification "k" (PyVal.list [])).1 rfl⟩,
   ⟨rfl, (c5_lazy_init_classification "k2" (PyVal.scalar (.model "obj"))).2.1 rfl⟩,
   rfl, rfl, (c5_lazy_init_classification "k3" (PyVal.scalar (.int 3))).2.2 rfl rfl⟩

/-- C6 counterexample: with a fresh context (`values_allowed = False`) and
`safe = False`, `Lazy.reveal` does not fail at all — it returns the proxy
itself (`except RuntimeError: return self`), contradicting the claim that
it fails with an `UnsafeProxyAccess` error. -/
theorem c6_reveal_counterexample :
    Lazy.reveal (some c6ctx) "k" false = .ok (.scalar (.lazy "k")) ∧
    ∀ e : PyErr, Lazy.reveal (some c6ctx) "k" false ≠ .error e := by
  constructor
  · rfl
  · intro e h
    rw [show Lazy.reveal (some c6ctx) "k" false = .ok (.scalar (.lazy "k")) from rfl] at h
    exact Except.noConfusion h

/-- C6 (amended): `reveal(safe)` returns the real value stored under the
key when `safe` is true or the context's `values_allowed` flag is true;
otherwise the underlying `LazyContext.get` raises the `UnsafeProxyAccess`
error, which `reveal` catches, returning the proxy itself unrevealed. -/
theorem c6_reveal_amended (c : LazyContext) (k : String) (safe : Bool) (v : PyVal) :
    ((safe = true ∨ c.values_allowed = true) → alook c.kwargs k = some v →
      Lazy.reveal (some c) k safe = .ok v) ∧
    (safe = false → c.values_allowed = false →
      LazyContext.get c k safe = .error (.runtimeError [UNSAFE_GET_ERROR]) ∧
      isUnsafeProxyAccess (.runtimeError [UNSAFE_GET_ERROR]) = true ∧
      Lazy.reveal (some c) k safe = .ok (.scalar (.lazy k))) := by
  constructor
  · intro hs hl
    have hget : LazyContext.get c k safe = .ok v := by
      unfold LazyContext.get
      rcases hs with h | h <;> simp [h, hl]
    simp [Lazy.reveal, hget]
  · intro h1 h2
    have hget : LazyContext.get c k safe = .error (.runtimeError [UNSAFE_GET_ERROR]) := by
      unfold LazyContext.get
      simp [h1, h2]
    exact ⟨hget, by decide, by simp [Lazy.reveal, hget]⟩

/-- C6 (amended) witness: in a fresh context holding `5` under `"k"`, a
safe access reveals `5`, while an unsafe access hits the `UnsafeProxyAccess`
error inside `LazyContext.get` and gets the proxy back. -/
theorem c6_reveal_amended_witness :
    (alook c6ctx.kwargs "k" = some (.scalar (.int 5)) ∧
      Lazy.reveal (some c6ctx) "k" true = .ok (.scalar (.int 5))) ∧
    (c6ctx.values_allowed = false ∧
      LazyContext.get c6ctx "k" false = .error (.runtimeError [UNSAFE_GET_ERROR]) ∧
      isUnsafeProxyAccess (.runtimeError [UNSAFE_GET_ERROR]) = true ∧
      Lazy.reveal (some c6ctx) "k" false = .ok (.scalar (.lazy "k"))) :=
  ⟨⟨rfl, (c6_reveal_amended c6ctx "k" true (.scalar (.int 5))).1 (Or.inl rfl) rfl⟩,
   ⟨rfl, (c6_reveal_amended c6ctx "k" false (.scalar (.int 5))).2 rfl rfl⟩⟩

/-- C7: testing the truthiness of a proxy always fails with the
`UnsafeProxyAccess` error, for every key and whatever the current context
(and its `values_allowed` flag) is. -/
theorem c7_truthiness_always_fails (inst : Option LazyContext) (key : String) :
    Lazy.nonzero inst key = .error (.runtimeError [LAZY_PROXY_CHECK_ERROR]) ∧
    isUnsafeProxyAccess (.runtimeError [LAZY_PROXY_CHECK_ERROR]) = true :=
  ⟨rfl, by decide⟩

/-- C8: entering a context saves the previously current instance and
installs the entered context as current; exiting restores the saved
instance whatever exception information and current instance it is handed
(so on every exit path); and a whole `with` block restores the previous
instance both on normal return and on error — nested blocks therefore
restore in last-in-first-out order. -/
theorem c8_context_restoration {α : Type} (world : Option LazyContext)
    (c : LazyContext)
    (body : Kwargs → Option LazyContext → Except PyErr α × Option LazyContext)
    (exc : Option PyErr) (world2 : Option LazyContext) :
    (LazyContext.enter c world).2.1 = some (LazyContext.enter c world).1 ∧
    (LazyContext.enter c world).1.prev = world ∧
    LazyContext.exit (LazyContext.enter c world).1 exc world2 = world ∧
    (withLazyContext world c body).2 = world :=
  ⟨rfl, rfl, rfl, rfl⟩

/-- C3 (code evaluated at the failing input): construct the engine with
`check=True, debug=False` — verification is enabled (`check` is true) — and
make a call on an empty cache (a miss).  The wrapped function is invoked
exactly once, with proxy values only: the trace is the one-element list of
the proxy kwargs, so no second invocation with real values happens even
though verification is enabled, because `real_qs = expected_qs` and
`expected_qs` is only computed under `DEBUG`. -/
theorem c3_miss_single_invocation :
    (LazySubstitute.init true false true).check = true ∧
    (LazySubstitute.init true false true).DEBUG = false ∧
    LazySubstitute.do_call (LazySubstitute.init true false true) Option.none
        (fun _ => ({ sql := "SELECT 1", params := [], model := "M" } : QS))
        [("a", .scalar (.int 5))] []
      = (.ok (.raw { raw_query := "SELECT 1", params := [], model := "M" }),
         [(["a"], [([KeyElem.stub],
            { raw_query := "SELECT 1", params := [], model := "M" })])],
         [[("a", .scalar (.lazy "a"))]]) :=
  ⟨rfl, rfl, rfl⟩

/-- C2 (code evaluated at the failing input): engine with `check=True,
debug=False`, a wrapped function whose proxy-built and real-built results
genuinely diverge (different SQL), and an empty cache.  The equivalence
check between the two results fails (`SqlMappingFailed`), yet `do_call`
never runs it: it returns the proxy-built normalized result (not the
real-built one), stores the unverified template in the cache, and never
calls the function with real values (the trace holds only the proxy
call). -/
theorem c2_miss_unverified_caching :
    (LazySubstitute.init true false true).check = true ∧
    LazySubstitute.assert_equivalent
        (some (LazyContext.mk [("a", PyVal.scalar (.int 5))] false Option.none))
        ("SELECT L WHERE a = %s", [PyVal.scalar (.lazy "a")])
        ("SELECT R WHERE a = %s", [PyVal.scalar (.int 5)])
      = .error (.sqlMappingFailed "SELECT L WHERE a = %s" "SELECT R WHERE a = %s") ∧
    LazySubstitute.do_call (LazySubstitute.init true false true)
        (some (LazyContext.mk [("a", PyVal.scalar (.int 5))] false Option.none))
        (fun kw => match alook kw "a" with
          | some (.scalar (.lazy _)) =>
            ({ sql := "SELECT L WHERE a = %s",
               params := [PyVal.scalar (.lazy "a")], model := "M" } : QS)
          | _ =>
            { sql := "SELECT R WHERE a = %s",
              params := [PyVal.scalar (.int 5)], model := "M" })
        [("a", PyVal.scalar (.int 5))] []
      = (.ok (.raw { raw_query := "SELECT L WHERE a = %s",
                     params := [PyVal.scalar (.int 5)], model := "M" }),
         [(["a"], [([KeyElem.stub],
            { raw_query := "SELECT L WHERE a = %s",
              params := [PyVal.scalar (.lazy "a")], model := "M" })])],
         [[("a", PyVal.scalar (.lazy "a"))]]) :=
  ⟨rfl, rfl, rfl⟩

/-- C9: an engine constructed with `debug=True` has `check = True` whatever
the `check` argument was (`self.check = check or debug`), and on any cache
miss a template is only ever stored after the equivalence check between the
proxy-built and the real-built result has passed. -/
theorem c9_debug_forces_verification (c e : Bool) (inst : Option LazyContext)
    (func : Kwargs → QS) (kwargs lk : Kwargs) (cache : CacheT) (raw : RawQS)
    (hlk : lazyKwargs kwargs = .ok lk)
    (hmiss : qcacheLookup (sigCache cache (callSignature kwargs)) (callKey kwargs)
      = Option.none)
    (hstored : qcacheLookup
        (sigCache
          (LazySubstitute.do_call (LazySubstitute.init c true e) inst func kwargs cache).2.1
          (callSignature kwargs))
        (callKey kwargs) = some raw) :
    (LazySubstitute.init c true e).check = true ∧
    LazySubstitute.assert_equivalent inst ((func lk).sql, (func lk).params)
      ((func kwargs).sql, (func kwargs).params) = .ok () := by
  refine ⟨by simp [LazySubstitute.init], ?_⟩
  unfold LazySubstitute.do_call at hstored
  simp only [LazySubstitute.init, Bool.or_true, hmiss, hlk, if_true] at hstored
  rcases hcr : LazySubstitute.cache_result inst (sigCache cache (callSignature kwargs))
      (callKey kwargs) (func lk) (some (func kwargs)) with e2 | x
  · rw [hcr] at hstored
    simp only [ite_self] at hstored
    rw [show sigCache (aupdate cache (callSignature kwargs)
          (sigCache cache (callSignature kwargs))) (callSignature kwargs)
        = sigCache cache (callSignature kwargs) by
      simp [sigCache, alook_aupdate]] at hstored
    rw [hmiss] at hstored
    exact absurd hstored (by simp)
  · obtain ⟨raw2, qc2⟩ := x
    exact cache_result_verified inst _ _ (func lk) (func kwargs) (raw2, qc2) hcr

/-- C9 witness: with `check=False, debug=True`, a constant wrapped function
and an empty cache, the miss stores a template and the equivalence check
indeed passed. -/
theorem c9_debug_forces_verification_witness :
    lazyKwargs [("b", PyVal.scalar (.int 7))] = .ok [("b", PyVal.scalar (.lazy "b"))] ∧
    qcacheLookup (sigCache [] (callSignature [("b", PyVal.scalar (.int 7))]))
        (callKey [("b", PyVal.scalar (.int 7))]) = Option.none ∧
    qcacheLookup
        (sigCache
          (LazySubstitute.do_call (LazySubstitute.init false true true) Option.none
            (fun _ => ({ sql := "SELECT 1", params := [], model := "M" } : QS))
            [("b", PyVal.scalar (.int 7))] []).2.1
          (callSignature [("b", PyVal.scalar (.int 7))]))
        (callKey [("b", PyVal.scalar (.int 7))])
      = some { raw_query := "SELECT 1", params := [], model := "M" } ∧
    ((LazySubstitute.init false true true).check = true ∧
      LazySubstitute.assert_equivalent Option.none ("SELECT 1", []) ("SELECT 1", [])
        = .ok ()) :=
  ⟨rfl, rfl, rfl,
    c9_debug_forces_verification false true Option.none
      (fun _ => ({ sql := "SELECT 1", params := [], model := "M" } : QS))
      [("b", PyVal.scalar (.int 7))] [("b", PyVal.scalar (.lazy "b"))] []
      { raw_query := "SELECT 1", params := [], model := "M" } rfl rfl rfl⟩
